import Mathlib

/-!
Shallow embedding of `srw_detector.py` (the SRWDetector ophyd adapter and its
discovery CLI) from the sirepo_bluesky repository.

The adapter bridges a bluesky/ophyd acquisition framework to a remote
Sirepo/SRW simulation service.  External collaborators (the remote service
client `SirepoBluesky`, the result reader `read_srw_file`, the databroker
resource registry, and the uid generator `new_uid`) live outside `src/`; they
are modelled abstractly, faithful to how `srw_detector.py` calls them and to
what the specification says about them.  Real numbers carried by motors and
result fields are modelled as rationals; byte strings as lists of characters.

`set_option maxRecDepth` is raised for concrete evaluations of `trigger`.
-/

set_option maxRecDepth 4000

namespace SRWSpec

/-- Errors that can abort an operation.  The remote service supplies its own
error values (authentication and run failures carry a service code), so that
"propagated unchanged" is expressible; the remaining constructors model the
Python exceptions raised locally (`KeyError`, `AttributeError` for calling a
method on `None`, `ValueError`, `AssertionError`, file-system errors and
reader errors). -/
inductive SimError where
  | keyError : SimError
  | attrError : SimError
  | valueError : String → SimError
  | assertionError : String → SimError
  | authError : Nat → SimError
  | runError : Nat → SimError
  | ioError : SimError
  | readError : String → SimError
deriving DecidableEq, Repr

/-- Values held by ophyd signals.  A signal may hold the opaque datum id
produced by `new_uid` (modelled as a natural number), a scalar, a pair (shape
and the two extents), or the initial placeholder value a fresh `Signal`
carries before any `put`. -/
inductive Val where
  | vid : Nat → Val
  | vnum : ℚ → Val
  | vpair : ℚ × ℚ → Val
  | vnone : Val
deriving DecidableEq, Repr

/-- A beamline element: a dict with the structural keys `title`, `type`,
`id`, `position` and the remaining (mutable, numeric) parameters as an
association list.  `element[param] = v` in Python becomes a prepend, and
lookup takes the most recent binding, matching dict overwrite semantics.
The parameter key is an `Option String` because `srw_detector.py` indexes
with `self.param1`, which may be Python `None`. -/
structure Element where
  title : String
  etype : String
  elemId : Nat
  position : String
  params : List (Option String × ℚ)
deriving DecidableEq, Repr

/-- Look up a parameter of an element (most recent binding first). -/
def Element.getp (e : Element) (k : Option String) : Option ℚ :=
  (e.params.find? (fun p => p.1 = k)).map (fun p => p.2)

/-- Set a parameter of an element (`element[k] = v`). -/
def Element.setp (e : Element) (k : Option String) (v : ℚ) : Element :=
  { e with params := (k, v) :: e.params }

/-- Modelled from the spec: `SirepoBluesky.find_element` (defined in
`sirepo_bluesky.py`, which is part of the repository but not under `src/`)
locates the first element of the beamline whose `title` field equals the
given value, and fails (lookup error) if none matches.  `srw_detector.py`
passes `self.optic_name` (a string) and `self.watch_name` (possibly `None`),
so the sought value is an `Option String`; no element title ever equals
`None`. -/
def find_element (beamline : List Element) (title : Option String) : Option Element :=
  beamline.find? (fun e => some e.title = title)

/-- Replace the first element with the given title by its image under `f`,
modelling that in Python the element returned by `find_element` is an alias
into `data['models']['beamline']`, so assigning to its keys mutates the
beamline in place. -/
def mutateFirst (beamline : List Element) (title : String) (f : Element → Element) :
    List Element :=
  match beamline with
  | [] => []
  | e :: rest =>
      if e.title = title then f e :: rest else e :: mutateFirst rest title f

/-- The part of the authentication response that `srw_detector.py` touches:
`data['models']['beamline']`. -/
structure SimData where
  beamline : List Element
deriving DecidableEq, Repr

/-- A motor as the adapter sees it: `motor.read()` returns a dict from field
names to records with a `value` entry; we keep field name to value.  A
missing field raises `KeyError`. -/
structure Motor where
  readings : List (String × ℚ)
deriving DecidableEq, Repr

/-- Evaluate `motor.read()[field]['value']`. -/
def Motor.readField (m : Motor) (field : String) : Option ℚ :=
  (m.readings.find? (fun p => p.1 = field)).map (fun p => p.2)

/-- Modelled from the spec: the resource registry collaborator (databroker)
accepts `(kind, path, metadata)` and returns a fresh resource identifier, and
accepts `(resource_id, datum_id, metadata)` to register a datum.  The empty
metadata dicts passed by `srw_detector.py` are omitted.  Entries are kept
newest first. -/
structure Registry where
  resources : List (Nat × String × String)
  datums : List (Nat × Nat)
  nextRid : Nat
deriving DecidableEq, Repr

/-- Register a resource (`reg.insert_resource('srw', srw_file, {})`);
returns the fresh resource id and the updated registry. -/
def Registry.insert_resource (r : Registry) (kind path : String) : Nat × Registry :=
  (r.nextRid,
   { resources := (r.nextRid, kind, path) :: r.resources
     datums := r.datums
     nextRid := r.nextRid + 1 })

/-- Register a datum (`reg.insert_datum(resource_id, datum_id, {})`). -/
def Registry.insert_datum (r : Registry) (rid did : Nat) : Registry :=
  { r with datums := (rid, did) :: r.datums }

/-- The file system seen by `trigger`: directories that exist, and files
written so far (path to contents).  Writing into a missing directory is an
I/O error; no directory is ever created. -/
structure FS where
  dirs : List String
  files : List (String × List Char)
deriving DecidableEq, Repr

/-- The SRWDetector instance: the configuration stored verbatim by
`__init__`, the mutable bookkeeping fields `_resource_id` and `_result`, and
the six signal components.  The registry handle `self.reg` is modelled by
pairing the detector with a `Registry` inside `World`. -/
structure SRWDetector where
  name : String
  optic_name : String
  param0 : String
  param1 : Option String
  motor0 : Motor
  motor1 : Option Motor
  field0 : String
  field1 : Option String
  resource_id : Option Nat
  result : List (String × Val)
  sim_id : Option String
  watch_name : Option String
  sirepo_server : String
  image : Val
  shape : Val
  mean : Val
  photon_energy : Val
  horizontal_extent : Val
  vertical_extent : Val
deriving DecidableEq, Repr

/-- Render an optional simulation id the way Python `format` renders it in
the assertion message (`None` for absent). -/
def simIdRepr : Option String → String
  | none => "None"
  | some s => s

/-- The constructor `SRWDetector.__init__`.  It stores every configuration
field verbatim and then asserts that `sim_id` is truthy (in Python both
`None` and the empty string are falsy), so construction fails with an
`AssertionError` exactly in those two cases.  The constructor takes no
remote-service argument and its result depends only on its arguments: no
network call occurs at construction time.  Parameters appear in source
order; the `reg` handle is modelled in `World`. -/
def SRWDetector.init (name optic_name param0 : String) (motor0 : Motor)
    (field0 : String) (motor1 : Option Motor) (field1 : Option String)
    (param1 : Option String) (sim_id : Option String)
    (watch_name : Option String) (sirepo_server : String) :
    Except SimError SRWDetector :=
  if sim_id = none ∨ sim_id = some "" then
    .error (.assertionError
      ("Simulation ID must be provided. Currently it is set to " ++ simIdRepr sim_id))
  else
    .ok { name := name
          optic_name := optic_name
          param0 := param0
          param1 := param1
          motor0 := motor0
          motor1 := motor1
          field0 := field0
          field1 := field1
          resource_id := none
          result := []
          sim_id := sim_id
          watch_name := watch_name
          sirepo_server := sirepo_server
          image := .vnone
          shape := .vnone
          mean := .vnone
          photon_energy := .vnone
          horizontal_extent := .vnone
          vertical_extent := .vnone }

/-- Python `str.find` over a list of characters: the index of the first
occurrence, or `-1` when absent. -/
def pyFind (l : List Char) (c : Char) : Int :=
  match l.findIdx? (fun d => d = c) with
  | some i => (i : Int)
  | none => -1

/-- Python slice `l[a:b]` with negative indices counted from the end. -/
def pySlice (l : List Char) (a b : Int) : List Char :=
  let n : Int := l.length
  let a1 := if a < 0 then max 0 (n + a) else min a n
  let b1 := if b < 0 then max 0 (n + b) else min b n
  (l.drop a1.toNat).take (b1.toNat - a1.toNat)

/-- What `read_srw_file` returns: a mapping with at least the keys `shape`,
`mean`, `photon_energy`, `horizontal_extent`, `vertical_extent`. -/
structure SRWResult where
  shape : ℚ × ℚ
  mean : ℚ
  photon_energy : ℚ
  horizontal_extent : ℚ × ℚ
  vertical_extent : ℚ × ℚ
deriving DecidableEq, Repr

/-- The environment of one `trigger` call: the current date path
(`date.strftime` of `datetime.now()`), the remote service responses in the
order `trigger` consumes them (`auth`, the pre-run `get_datafile`,
`run_simulation`, the post-run `get_datafile`) and the result reader
`read_srw_file`, which parses file contents into the derived fields.  The
remote calls may fail with their own error value, which models "failure
propagates as-is". -/
structure Env where
  date : String
  authResult : Except SimError SimData
  datafilePre : List Char
  runResult : Except SimError Unit
  datafilePost : List Char
  reader : List Char → Except SimError SRWResult

/-- The mutable world a trigger call runs in: the detector, the registry it
holds a handle to, the file system, and the state of the uid source.
`new_uid` (from `ophyd.sim`) returns a globally unique fresh identifier per
call; it is modelled as a counter, so the datum id of a call is the counter
value at that call. -/
structure World where
  det : SRWDetector
  reg : Registry
  fs : FS
  uidCounter : Nat
deriving DecidableEq, Repr

/-- Observables of a successful trigger that are otherwise sent to the
remote service: the beamline as mutated by the two parameter assignments
(this is what `run_simulation` transmits), the selected report string, the
generated datum id and the computed file path. -/
structure TriggerOut where
  sentBeamline : List Element
  report : String
  datumId : Nat
  srwFile : String
deriving DecidableEq, Repr

/-- The body of `SRWDetector.trigger`, translated step by step from
`srw_detector.py` lines 81 to 120.  The call returns either the observables
of a successful run or the propagated error, together with the world after
whatever effects actually happened before the failure point (so partial
effects, such as the already-written file when the reader fails, stay
visible).  `super().trigger()` on a `Device` with no trigger components has
no effect and is omitted. -/
def trigger (env : Env) (w : World) : Except SimError TriggerOut × World :=
  match w.det.motor0.readField w.det.field0 with
  | none => (.error .keyError, w)
  | some x =>
  match w.det.motor1 with
  | none => (.error .attrError, w)
  | some m1 =>
  match w.det.field1 with
  | none => (.error .keyError, w)
  | some f1 =>
  match m1.readField f1 with
  | none => (.error .keyError, w)
  | some y =>
  let datumId := w.uidCounter
  let w1 : World := { w with uidCounter := w.uidCounter + 1 }
  let dir := "/tmp/data/" ++ env.date
  let srwFile := dir ++ "/" ++ toString datumId ++ ".dat"
  match env.authResult with
  | .error e => (.error e, w1)
  | .ok data =>
  let sbData := (env.datafilePre.drop 200).take 100
  let _finalUnits := pySlice sbData (pyFind sbData '[' + 1) (pyFind sbData ']')
  match find_element data.beamline (some w.det.optic_name) with
  | none => (.error (.valueError "element not found"), w1)
  | some _ =>
  let beamline1 := mutateFirst data.beamline w.det.optic_name
    (fun e => (e.setp (some w.det.param0) (x * 1000)).setp w.det.param1 (y * 1000))
  match find_element beamline1 w.det.watch_name with
  | none => (.error (.valueError "element not found"), w1)
  | some watch =>
  let report := "watchpointReport" ++ toString watch.elemId
  match env.runResult with
  | .error e => (.error e, w1)
  | .ok _ =>
  if dir ∈ w1.fs.dirs then
    let w2 : World :=
      { w1 with fs := { w1.fs with files := (srwFile, env.datafilePost) :: w1.fs.files } }
    match env.reader env.datafilePost with
    | .error e => (.error e, w2)
    | .ok ret =>
      let det1 : SRWDetector :=
        { w2.det with
          image := .vid datumId
          shape := .vpair ret.shape
          mean := .vnum ret.mean
          photon_energy := .vnum ret.photon_energy
          horizontal_extent := .vpair ret.horizontal_extent
          vertical_extent := .vpair ret.vertical_extent }
      let rr := w2.reg.insert_resource "srw" srwFile
      let reg2 := rr.2.insert_datum rr.1 datumId
      (.ok { sentBeamline := beamline1
             report := report
             datumId := datumId
             srwFile := srwFile },
       { w2 with det := { det1 with resource_id := some rr.1 }, reg := reg2 })
  else (.error .ioError, w1)

/-- The `describe` metadata the adapter reports for a signal.  Only the key
that `srw_detector.py` touches is modelled: `external`, absent (`none`) in
the base `Device.describe` output and set by the override. -/
structure SignalDesc where
  external : Option String
deriving DecidableEq, Repr

/-- The full names of the six signal components, as ophyd derives them from
the device name (`<name>_<attribute>`), in component declaration order. -/
def signalKeys (det : SRWDetector) : List String :=
  [det.name ++ "_image", det.name ++ "_shape", det.name ++ "_mean",
   det.name ++ "_photon_energy", det.name ++ "_horizontal_extent",
   det.name ++ "_vertical_extent"]

/-- The metadata dict returned by `super().describe()`: one entry per signal
component, none of them marked external. -/
def baseDescribe (det : SRWDetector) : List (String × SignalDesc) :=
  (signalKeys det).map (fun k => (k, { external := none }))

/-- Update the entry of one key in a describe dict
(`res[self.image.name].update(dict(external="FILESTORE"))`). -/
def updateExternal (l : List (String × SignalDesc)) (key v : String) :
    List (String × SignalDesc) :=
  l.map (fun p => if p.1 = key then (p.1, { external := some v }) else p)

/-- The override `SRWDetector.describe`: the base metadata with the image
entry marked `external="FILESTORE"`. -/
def SRWDetector.describe (det : SRWDetector) : List (String × SignalDesc) :=
  updateExternal (baseDescribe det) (det.name ++ "_image") "FILESTORE"

/-- The override `SRWDetector.unstage` on the detector: clears
`self._resource_id` and `self._result`.  The inherited `Device.unstage`
reverts staged signal values; this device stages none, so it has no
effect. -/
def SRWDetector.unstage (det : SRWDetector) : SRWDetector :=
  { det with resource_id := none, result := [] }

/-- Unstaging seen at the world level: only the detector bookkeeping fields
change; files and registry entries are untouched. -/
def World.unstage (w : World) : World :=
  { w with det := w.det.unstage }

/-- Python dict insertion for the `watchpoints` dict of `get_options`
(newest binding wins, older binding for the same key is dropped). -/
def dictInsert (d : List (String × String)) (k v : String) : List (String × String) :=
  (k, v) :: d.filter (fun p => p.1 ≠ k)

/-- The `watchpoints` dict built by `get_options`: for every beamline element
whose `type` is `watch`, its title mapped to `str` of its position. -/
def watchpointsOf (beamline : List Element) : List (String × String) :=
  beamline.foldl
    (fun d e => if e.etype = "watch" then dictInsert d e.title e.position else d) []

/-- The discovery helper `get_options` (lines 145 to 158): authenticates,
collects the watch-point elements, and raises `ValueError` if none were
found.  The `print` calls have no modelled effect; the collected dict is
returned for observability. -/
def get_options (authResult : Except SimError SimData) :
    Except SimError (List (String × String)) :=
  match authResult with
  | .error e => .error e
  | .ok data =>
      let watchpoints := watchpointsOf data.beamline
      if watchpoints.length < 1 then
        .error (.valueError "No watchpoints found. This simulation will not work")
      else .ok watchpoints

/-- Outcome of the module-level script: how many `input()` prompts were
issued before it finished or died, and the constructed detector (or the
uncaught error). -/
structure CliRun where
  prompts : Nat
  outcome : Except SimError SRWDetector
deriving Repr

/-- The module-level script (lines 160 to 173): prompt for a simulation id,
run `get_options` (which authenticates with that id; an uncaught error stops
the script with only that one prompt issued), then prompt for the optical
element, the two parameter names and the watch-point name, build the
`Component` of two `SynAxis` motors (fresh axes read back 0) and construct
the detector.  `auth` maps the entered simulation id to the service
response; `inputs` is the operator's answer stream. -/
def cliScript (auth : String → Except SimError SimData) (inputs : List String) : CliRun :=
  let simIdIn := inputs.getD 0 ""
  match get_options (auth simIdIn) with
  | .error e => { prompts := 1, outcome := .error e }
  | .ok _ =>
      let opticId := inputs.getD 1 ""
      let p0 := inputs.getD 2 ""
      let p1 := inputs.getD 3 ""
      let wn := inputs.getD 4 ""
      { prompts := 5
        outcome := SRWDetector.init "srw_det" opticId p0
          { readings := [(opticId ++ "_x", 0)] } (opticId ++ "_x")
          (some { readings := [(opticId ++ "_y", 0)] }) (some (opticId ++ "_y"))
          (some p1) (some simIdIn) (some wn) "http://10.10.10.10:8000" }

/-- A concrete beamline used by the witnesses: one aperture and one
watch-point. -/
def blDemo : List Element :=
  [{ title := "Aperture", etype := "aperture", elemId := 3, position := "20",
     params := [(some "horizontalSize", 4), (some "verticalSize", 4)] },
   { title := "W60", etype := "watch", elemId := 60, position := "25", params := [] }]

/-- A concrete detector configuration used by the witnesses. -/
def detDemo : SRWDetector :=
  { name := "srw_det"
    optic_name := "Aperture"
    param0 := "horizontalSize"
    param1 := some "verticalSize"
    motor0 := { readings := [("ap_x", 1)] }
    motor1 := some { readings := [("ap_y", 2)] }
    field0 := "ap_x"
    field1 := some "ap_y"
    resource_id := none
    result := []
    sim_id := some "demo00"
    watch_name := some "W60"
    sirepo_server := "http://10.10.10.10:8000"
    image := .vnone
    shape := .vnone
    mean := .vnone
    photon_energy := .vnone
    horizontal_extent := .vnone
    vertical_extent := .vnone }

/-- The stub reader result from the specification's test vector. -/
def retDemo : SRWResult :=
  { shape := (100, 100)
    mean := 5
    photon_energy := 9000
    horizontal_extent := (-1, 1)
    vertical_extent := (-1, 1) }

/-- A well-behaved remote environment used by the witnesses. -/
def envDemo : Env :=
  { date := "2020/01/01"
    authResult := .ok { beamline := blDemo }
    datafilePre := []
    runResult := .ok ()
    datafilePost := []
    reader := fun _ => .ok retDemo }

/-- The initial world used by the witnesses: the destination directory for
the demo date exists, no files, an empty registry, uid counter at zero. -/
def wDemo : World :=
  { det := detDemo
    reg := { resources := [], datums := [], nextRid := 0 }
    fs := { dirs := ["/tmp/data/2020/01/01"], files := [] }
    uidCounter := 0 }

/-- The window of the pre-run datafile that the units extraction of
`trigger` looks at: `sb.get_datafile().decode("utf-8")[200:300]`. -/
def unitsWindow (d : List Char) : List Char :=
  (d.drop 200).take 100

/-- The units substring extracted (and then never used) by `trigger`:
`sb_data[start + 1:end]` for the first `[` and `]` in the window. -/
def finalUnitsOf (d : List Char) : List Char :=
  let w := unitsWindow d
  pySlice w (pyFind w '[' + 1) (pyFind w ']')

/-- Everything in a pre-run datafile except the extracted units substring:
the bytes before the window, the window up to and including the first `[`,
the window from the first `]` on, and the bytes after the window.  Two
datafiles differ only in the extracted units substring exactly when they
agree under this map. -/
def unitsStripped (d : List Char) : List Char :=
  let w := unitsWindow d
  d.take 200 ++ pySlice w 0 (pyFind w '[' + 1) ++
    pySlice w (pyFind w ']') w.length ++ d.drop 300

/-- The first demo beamline element (the mutated optic). -/
def apDemo : Element :=
  { title := "Aperture", etype := "aperture", elemId := 3, position := "20",
    params := [(some "horizontalSize", 4), (some "verticalSize", 4)] }

/-- The second demo beamline element (the watch-point). -/
def watchDemo : Element :=
  { title := "W60", etype := "watch", elemId := 60, position := "25", params := [] }

/-- A single-motor detector configuration: the second motor, field and
parameter are absent. -/
def detSingle : SRWDetector :=
  { detDemo with motor1 := none, field1 := none, param1 := none }

/-- The demo world with the single-motor detector. -/
def wSingle : World :=
  { wDemo with det := detSingle }

/-- A demo environment whose authentication fails. -/
def envAuthErr : Env :=
  { envDemo with authResult := .error (.authError 401) }

/-- The observables of the first demo trigger run, as computed by
`trigger envDemo wDemo`. -/
def oDemo : TriggerOut :=
  { sentBeamline :=
      [{ title := "Aperture", etype := "aperture", elemId := 3, position := "20",
         params := [(some "verticalSize", 2000), (some "horizontalSize", 1000),
                    (some "horizontalSize", 4), (some "verticalSize", 4)] },
       watchDemo]
    report := "watchpointReport60"
    datumId := 0
    srwFile := "/tmp/data/2020/01/01/0.dat" }

/-- The detector after the first demo trigger run. -/
def det1Demo : SRWDetector :=
  { detDemo with
    resource_id := some 0
    image := .vid 0
    shape := .vpair (100, 100)
    mean := .vnum 5
    photon_energy := .vnum 9000
    horizontal_extent := .vpair (-1, 1)
    vertical_extent := .vpair (-1, 1) }

/-- The world after the first demo trigger run. -/
def w1Demo : World :=
  { det := det1Demo
    reg := { resources := [(0, "srw", "/tmp/data/2020/01/01/0.dat")]
             datums := [(0, 0)], nextRid := 1 }
    fs := { dirs := ["/tmp/data/2020/01/01"]
            files := [("/tmp/data/2020/01/01/0.dat", [])] }
    uidCounter := 1 }

/-- The observables of the second demo trigger run. -/
def oDemo2 : TriggerOut :=
  { oDemo with datumId := 1, srwFile := "/tmp/data/2020/01/01/1.dat" }

/-- The world after the second demo trigger run. -/
def w2Demo : World :=
  { det := { det1Demo with resource_id := some 1, image := .vid 1 }
    reg := { resources := [(1, "srw", "/tmp/data/2020/01/01/1.dat"),
                           (0, "srw", "/tmp/data/2020/01/01/0.dat")]
             datums := [(1, 1), (0, 0)], nextRid := 2 }
    fs := { dirs := ["/tmp/data/2020/01/01"]
            files := [("/tmp/data/2020/01/01/1.dat", []),
                      ("/tmp/data/2020/01/01/0.dat", [])] }
    uidCounter := 2 }

/-- A pre-run datafile: 200 filler bytes, then a bracketed units string. -/
def preA : List Char :=
  List.replicate 200 'a' ++ String.data "xx[mm]yy"

/-- The same pre-run datafile except for the extracted units substring. -/
def preB : List Char :=
  List.replicate 200 'a' ++ String.data "xx[um]yy"

/-- A stub remote service for the CLI witness: every simulation id
authenticates to a beamline holding a single non-watch element. -/
def authStub : String → Except SimError SimData :=
  fun _ => .ok { beamline := [apDemo] }

/-- Helper: appending distinct suffixes to the same string yields distinct
strings. -/
theorem append_ne_of_ne (s : String) {a b : String} (h : a ≠ b) :
    s ++ a ≠ s ++ b := by
  intro he
  have hd := congrArg String.data he
  simp only [String.data_append] at hd
  exact h (String.ext (List.append_cancel_left hd))

/-- C6: constructing the adapter without a simulation id (Python `None` or
the empty string, both falsy) always fails with the assertion error carrying
the formatted message; `SRWDetector.init` takes no remote-service argument
and its result depends only on its arguments, so no network call is
attempted in either case.  With a non-empty simulation id, construction
succeeds and stores every configuration field verbatim. -/
theorem init_requires_sim_id (n o p0 : String) (m0 : Motor) (f0 : String)
    (m1 : Option Motor) (f1 : Option String) (p1 : Option String)
    (wn : Option String) (srv : String) (sid : String) (h : sid ≠ "") :
    SRWDetector.init n o p0 m0 f0 m1 f1 p1 none wn srv =
      .error (.assertionError
        "Simulation ID must be provided. Currently it is set to None") ∧
    SRWDetector.init n o p0 m0 f0 m1 f1 p1 (some "") wn srv =
      .error (.assertionError
        "Simulation ID must be provided. Currently it is set to ") ∧
    SRWDetector.init n o p0 m0 f0 m1 f1 p1 (some sid) wn srv =
      .ok { name := n, optic_name := o, param0 := p0, param1 := p1,
            motor0 := m0, motor1 := m1, field0 := f0, field1 := f1,
            resource_id := none, result := [], sim_id := some sid,
            watch_name := wn, sirepo_server := srv, image := .vnone,
            shape := .vnone, mean := .vnone, photon_energy := .vnone,
            horizontal_extent := .vnone, vertical_extent := .vnone } := by
  refine ⟨rfl, rfl, ?_⟩
  simp [SRWDetector.init, h]

/-- Witness for C6 at the demo configuration. -/
theorem init_requires_sim_id_witness :
    ("demo00" : String) ≠ "" ∧
    SRWDetector.init "srw_det" "Aperture" "horizontalSize"
      { readings := [("ap_x", 1)] } "ap_x" (some { readings := [("ap_y", 2)] })
      (some "ap_y") (some "verticalSize") (some "demo00") (some "W60")
      "http://10.10.10.10:8000" = .ok detDemo :=
  ⟨by decide,
   (init_requires_sim_id "srw_det" "Aperture" "horizontalSize"
      { readings := [("ap_x", 1)] } "ap_x" (some { readings := [("ap_y", 2)] })
      (some "ap_y") (some "verticalSize") (some "W60")
      "http://10.10.10.10:8000" "demo00" (by decide)).2.2⟩

/-- C7: for every detector, `describe` returns the six signal entries with
exactly the image entry marked `external="FILESTORE"` and no other entry
marked, regardless of construction parameters; and describing after
`unstage` returns the same metadata, since `describe` does not read the
pending-result fields that `unstage` clears. -/
theorem describe_marks_image_external (det : SRWDetector) :
    det.describe =
      [(det.name ++ "_image", { external := some "FILESTORE" }),
       (det.name ++ "_shape", { external := none }),
       (det.name ++ "_mean", { external := none }),
       (det.name ++ "_photon_energy", { external := none }),
       (det.name ++ "_horizontal_extent", { external := none }),
       (det.name ++ "_vertical_extent", { external := none })] ∧
    det.unstage.describe = det.describe := by
  constructor
  · have h1 := append_ne_of_ne det.name (show "_shape" ≠ "_image" by decide)
    have h2 := append_ne_of_ne det.name (show "_mean" ≠ "_image" by decide)
    have h3 := append_ne_of_ne det.name (show "_photon_energy" ≠ "_image" by decide)
    have h4 := append_ne_of_ne det.name (show "_horizontal_extent" ≠ "_image" by decide)
    have h5 := append_ne_of_ne det.name (show "_vertical_extent" ≠ "_image" by decide)
    simp [SRWDetector.describe, baseDescribe, signalKeys, updateExternal,
      h1, h2, h3, h4, h5]
  · rfl

/-- C8: `unstage` resets the resource-id reference to empty and clears the
pending-result cache, and changes nothing else: the six signals, the
on-disk files and the registry entries are untouched. -/
theorem unstage_frame (w : World) :
    w.unstage.det.resource_id = none ∧
    w.unstage.det.result = [] ∧
    w.unstage.det.image = w.det.image ∧
    w.unstage.det.shape = w.det.shape ∧
    w.unstage.det.mean = w.det.mean ∧
    w.unstage.det.photon_energy = w.det.photon_energy ∧
    w.unstage.det.horizontal_extent = w.det.horizontal_extent ∧
    w.unstage.det.vertical_extent = w.det.vertical_extent ∧
    w.unstage.fs = w.fs ∧
    w.unstage.reg = w.reg :=
  ⟨rfl, rfl, rfl, rfl, rfl, rfl, rfl, rfl, rfl, rfl⟩

/-- Reading back the parameter just set returns the value set. -/
theorem getp_setp_self (e : Element) (k : Option String) (v : ℚ) :
    (e.setp k v).getp k = some v := by
  simp [Element.getp, Element.setp]

/-- Setting one parameter leaves the others readable unchanged. -/
theorem getp_setp_ne (e : Element) {k k1 : Option String} (h : k1 ≠ k) (v : ℚ) :
    (e.setp k v).getp k1 = e.getp k1 := by
  unfold Element.getp Element.setp
  rw [List.find?_cons_of_neg]
  simp only [decide_eq_true_eq]
  exact fun he => h he.symm

/-- Looking up the mutated title after `mutateFirst` finds the image under
`f` of the original element, provided `f` preserves titles. -/
theorem find_element_mutateFirst (bl : List Element) (t : String)
    (f : Element → Element) (hf : ∀ e, (f e).title = e.title) :
    find_element (mutateFirst bl t f) (some t) =
      (find_element bl (some t)).map f := by
  induction bl with
  | nil => rfl
  | cons e rest ih =>
      by_cases he : e.title = t
      · simp [find_element, mutateFirst, he, hf e, List.find?_cons_of_pos]
      · simp only [find_element, mutateFirst, he, if_false]
        rw [List.find?_cons_of_neg, List.find?_cons_of_neg]
        · exact ih
        · simp [he]
        · simp [he]

/-- Structure of the state after any successful trigger: the datum id is the
uid-counter value at the call, the file path is date-and-id derived, the uid
counter advanced once, and the registry gained exactly one resource entry
(under the fresh resource id, pointing at the file path) and exactly one
datum entry linking that resource id to the generated datum id; the fresh
resource id is remembered in `_resource_id`. -/
theorem trigger_ok_inv {env : Env} {w : World} {o : TriggerOut} {w' : World}
    (h : trigger env w = (.ok o, w')) :
    o.datumId = w.uidCounter ∧
    o.srwFile = "/tmp/data/" ++ env.date ++ "/" ++ toString w.uidCounter ++ ".dat" ∧
    w'.uidCounter = w.uidCounter + 1 ∧
    w'.reg.nextRid = w.reg.nextRid + 1 ∧
    w'.reg.resources = (w.reg.nextRid, "srw", o.srwFile) :: w.reg.resources ∧
    w'.reg.datums = (w.reg.nextRid, o.datumId) :: w.reg.datums ∧
    w'.det.resource_id = some w.reg.nextRid := by
  unfold trigger at h
  repeat any_goals split at h
  all_goals try simp_all [Registry.insert_resource, Registry.insert_datum]
  repeat any_goals split at h
  all_goals try simp_all [Registry.insert_resource, Registry.insert_datum]
  all_goals obtain ⟨ho, hw⟩ := h
  all_goals subst ho
  all_goals subst hw
  all_goals simp

/-- C2: a completed trigger creates exactly one resource entry and exactly
one datum entry, the datum entry carrying the datum id generated for that
call; and for two successive successful triggers the generated datum ids
differ and the two datum entries point at distinct resource entries. -/
theorem trigger_registry_unique_ids
    (env1 env2 : Env) (w0 w1 w2 : World) (o1 o2 : TriggerOut)
    (h1 : trigger env1 w0 = (.ok o1, w1))
    (h2 : trigger env2 w1 = (.ok o2, w2)) :
    w1.reg.resources.length = w0.reg.resources.length + 1 ∧
    w1.reg.datums = (w0.reg.nextRid, o1.datumId) :: w0.reg.datums ∧
    w2.reg.resources.length = w1.reg.resources.length + 1 ∧
    w2.reg.datums = (w1.reg.nextRid, o2.datumId) :: w1.reg.datums ∧
    o1.datumId ≠ o2.datumId ∧
    (w0.reg.nextRid, o1.datumId) ∈ w2.reg.datums ∧
    (w1.reg.nextRid, o2.datumId) ∈ w2.reg.datums ∧
    w0.reg.nextRid ≠ w1.reg.nextRid := by
  obtain ⟨d1, -, u1, n1, r1, dm1, -⟩ := trigger_ok_inv h1
  obtain ⟨d2, -, u2, n2, r2, dm2, -⟩ := trigger_ok_inv h2
  refine ⟨by simp [r1], dm1, by simp [r2], dm2, ?_, ?_, ?_, ?_⟩
  · rw [d1, d2, u1]; omega
  · rw [dm2, dm1]; simp
  · rw [dm2]; simp
  · omega

/-- Helper: the first demo trigger run, evaluated. -/
theorem trigger_demo_eval : trigger envDemo wDemo = (.ok oDemo, w1Demo) := by
  have e1 : (1 : ℚ) * 1000 = 1000 := by norm_num
  have e2 : (2 : ℚ) * 1000 = 2000 := by norm_num
  simp [trigger, envDemo, wDemo, detDemo, blDemo, oDemo, w1Demo, det1Demo,
    watchDemo, Motor.readField, find_element, mutateFirst, Element.setp,
    Registry.insert_resource, Registry.insert_datum, List.find?, e1, e2, retDemo]
  exact ⟨rfl, rfl⟩

/-- Helper: the second demo trigger run, evaluated. -/
theorem trigger_demo_eval2 : trigger envDemo w1Demo = (.ok oDemo2, w2Demo) := by
  have e1 : (1 : ℚ) * 1000 = 1000 := by norm_num
  have e2 : (2 : ℚ) * 1000 = 2000 := by norm_num
  simp [trigger, envDemo, wDemo, detDemo, blDemo, oDemo, oDemo2, w1Demo, w2Demo,
    det1Demo, watchDemo, Motor.readField, find_element, mutateFirst, Element.setp,
    Registry.insert_resource, Registry.insert_datum, List.find?, e1, e2, retDemo]
  exact ⟨rfl, rfl⟩

/-- Witness for C2: two successive successful demo triggers. -/
theorem trigger_registry_unique_ids_witness :
    trigger envDemo wDemo = (.ok oDemo, w1Demo) ∧
    trigger envDemo w1Demo = (.ok oDemo2, w2Demo) ∧
    w1Demo.reg.datums = (wDemo.reg.nextRid, oDemo.datumId) :: wDemo.reg.datums ∧
    w2Demo.reg.datums = (w1Demo.reg.nextRid, oDemo2.datumId) :: w1Demo.reg.datums ∧
    oDemo.datumId ≠ oDemo2.datumId ∧
    wDemo.reg.nextRid ≠ w1Demo.reg.nextRid := by
  have h := trigger_registry_unique_ids envDemo envDemo wDemo w1Demo w2Demo
    oDemo oDemo2 trigger_demo_eval trigger_demo_eval2
  exact ⟨trigger_demo_eval, trigger_demo_eval2, h.2.1, h.2.2.2.1,
    h.2.2.2.2.1, h.2.2.2.2.2.2.2⟩

/-- Counterexample for C4: at the start of the second demo trigger a
resource is already registered for this session (`_resource_id` is set and
the registry holds one resource entry), yet the completed second trigger
registers another resource entry: `insert_resource` is called
unconditionally on line 117, not guarded by prior registration. -/
theorem trigger_resource_reregistration_cex :
    w1Demo.det.resource_id = some 0 ∧
    w1Demo.reg.resources.length = 1 ∧
    trigger envDemo w1Demo = (.ok oDemo2, w2Demo) ∧
    w2Demo.reg.resources.length = 2 :=
  ⟨rfl, rfl, trigger_demo_eval2, rfl⟩

/-- C4 as amended: every completed trigger registers a new resource entry
pointing at the computed file path, regardless of whether one was already
registered for this session, and always registers a new datum linking the
generated datum id to that fresh resource. -/
theorem trigger_always_inserts_resource {env : Env} {w : World}
    {o : TriggerOut} {w' : World} (h : trigger env w = (.ok o, w')) :
    w'.reg.resources = (w.reg.nextRid, "srw", o.srwFile) :: w.reg.resources ∧
    w'.reg.datums = (w.reg.nextRid, o.datumId) :: w.reg.datums ∧
    w'.det.resource_id = some w.reg.nextRid := by
  obtain ⟨-, -, -, -, r, d, rid⟩ := trigger_ok_inv h
  exact ⟨r, d, rid⟩

/-- Witness for the amended C4 at the second demo trigger, whose starting
world already holds a registered resource. -/
theorem trigger_always_inserts_resource_witness :
    trigger envDemo w1Demo = (.ok oDemo2, w2Demo) ∧
    w2Demo.reg.resources =
      (w1Demo.reg.nextRid, "srw", oDemo2.srwFile) :: w1Demo.reg.resources ∧
    w2Demo.reg.datums = (w1Demo.reg.nextRid, oDemo2.datumId) :: w1Demo.reg.datums ∧
    w2Demo.det.resource_id = some w1Demo.reg.nextRid :=
  ⟨trigger_demo_eval2, trigger_always_inserts_resource trigger_demo_eval2⟩

/-- Counterexample for C5: the single-motor configuration is constructible
(the constructor accepts `motor1 = None`), but `trigger` then fails with an
attribute error even under the well-behaved demo remote service, because
line 84 unconditionally calls `self._motor1.read()` on `None`. -/
theorem single_motor_trigger_cex :
    SRWDetector.init "srw_det" "Aperture" "horizontalSize"
      { readings := [("ap_x", 1)] } "ap_x" none none none (some "demo00")
      (some "W60") "http://10.10.10.10:8000" = .ok detSingle ∧
    trigger envDemo wSingle = (.error .attrError, wSingle) :=
  ⟨rfl, rfl⟩

/-- C5 as amended: an adapter holding a single motor is constructible
(construction with the second motor, field and parameter absent succeeds and
stores them as absent), but `Trigger()` unconditionally reads the second
motor, so with `motor1` absent every trigger fails with an attribute error
and leaves the world unchanged, however well-behaved the remote service;
both motors must be configured for the motor reads to succeed. -/
theorem single_motor_trigger_fails (n o p0 : String) (m0 : Motor)
    (f0 : String) (wn : Option String) (srv sid : String) (env : Env)
    (w : World) (x : ℚ) (hsid : sid ≠ "")
    (hm : w.det.motor1 = none)
    (hx : w.det.motor0.readField w.det.field0 = some x) :
    SRWDetector.init n o p0 m0 f0 none none none (some sid) wn srv =
      .ok { name := n, optic_name := o, param0 := p0, param1 := none,
            motor0 := m0, motor1 := none, field0 := f0, field1 := none,
            resource_id := none, result := [], sim_id := some sid,
            watch_name := wn, sirepo_server := srv, image := .vnone,
            shape := .vnone, mean := .vnone, photon_energy := .vnone,
            horizontal_extent := .vnone, vertical_extent := .vnone } ∧
    trigger env w = (.error .attrError, w) := by
  constructor
  · simp [SRWDetector.init, hsid]
  · simp [trigger, hx, hm]

/-- Witness for the amended C5 at the single-motor demo configuration. -/
theorem single_motor_trigger_fails_witness :
    ("demo00" : String) ≠ "" ∧
    wSingle.det.motor1 = none ∧
    wSingle.det.motor0.readField wSingle.det.field0 = some 1 ∧
    (SRWDetector.init "srw_det" "Aperture" "horizontalSize"
        { readings := [("ap_x", 1)] } "ap_x" none none none (some "demo00")
        (some "W60") "http://10.10.10.10:8000" = .ok detSingle ∧
      trigger envDemo wSingle = (.error .attrError, wSingle)) :=
  ⟨by decide, rfl, rfl,
   single_motor_trigger_fails "srw_det" "Aperture" "horizontalSize"
     { readings := [("ap_x", 1)] } "ap_x" (some "W60")
     "http://10.10.10.10:8000" "demo00" envDemo wSingle 1 (by decide) rfl rfl⟩

/-- C3: when the motor reads succeed, each remote-service failure mode of
`trigger` (authentication failure, element-not-found for the optic,
element-not-found for the watch-point, simulation-run failure) propagates
the error value unchanged to the caller, and the returned world differs
from the initial one only in the consumed uid: the detector (all six
signals and `_resource_id`), the registry and the file system are exactly
those of the initial world, so no registry entry is inserted and no signal
is updated. -/
theorem trigger_remote_error_propagation (env : Env) (w : World)
    (x y : ℚ) (m1 : Motor) (f1 : String)
    (hx : w.det.motor0.readField w.det.field0 = some x)
    (hm1 : w.det.motor1 = some m1)
    (hf1 : w.det.field1 = some f1)
    (hy : m1.readField f1 = some y) :
    (∀ e, env.authResult = .error e →
      trigger env w = (.error e, { w with uidCounter := w.uidCounter + 1 })) ∧
    (∀ bl, env.authResult = .ok { beamline := bl } →
      find_element bl (some w.det.optic_name) = none →
      trigger env w = (.error (.valueError "element not found"),
        { w with uidCounter := w.uidCounter + 1 })) ∧
    (∀ bl el, env.authResult = .ok { beamline := bl } →
      find_element bl (some w.det.optic_name) = some el →
      find_element (mutateFirst bl w.det.optic_name
          (fun e2 => (e2.setp (some w.det.param0) (x * 1000)).setp
            w.det.param1 (y * 1000))) w.det.watch_name = none →
      trigger env w = (.error (.valueError "element not found"),
        { w with uidCounter := w.uidCounter + 1 })) ∧
    (∀ bl el wel e, env.authResult = .ok { beamline := bl } →
      find_element bl (some w.det.optic_name) = some el →
      find_element (mutateFirst bl w.det.optic_name
          (fun e2 => (e2.setp (some w.det.param0) (x * 1000)).setp
            w.det.param1 (y * 1000))) w.det.watch_name = some wel →
      env.runResult = .error e →
      trigger env w = (.error e, { w with uidCounter := w.uidCounter + 1 })) := by
  refine ⟨?_, ?_, ?_, ?_⟩
  · intro e hauth
    simp [trigger, hx, hm1, hf1, hy, hauth]
  · intro bl hauth hfind
    simp [trigger, hx, hm1, hf1, hy, hauth, hfind]
  · intro bl el hauth hfind hwatch
    simp [trigger, hx, hm1, hf1, hy, hauth, hfind, hwatch]
  · intro bl el wel e hauth hfind hwatch hrun
    simp [trigger, hx, hm1, hf1, hy, hauth, hfind, hwatch, hrun]

/-- Witness for C3: an authentication failure at the demo configuration is
propagated unchanged and leaves everything but the consumed uid intact. -/
theorem trigger_remote_error_propagation_witness :
    wDemo.det.motor0.readField wDemo.det.field0 = some 1 ∧
    wDemo.det.motor1 = some { readings := [("ap_y", 2)] } ∧
    envAuthErr.authResult = .error (.authError 401) ∧
    trigger envAuthErr wDemo =
      (.error (.authError 401), { wDemo with uidCounter := 1 }) :=
  ⟨rfl, rfl, rfl,
   (trigger_remote_error_propagation envAuthErr wDemo 1 2
      { readings := [("ap_y", 2)] } "ap_y" rfl rfl rfl rfl).1
     (.authError 401) rfl⟩

/-- C1: in a fully successful trigger with motor readings `x` and `y`, the
beamline transmitted to the remote run holds the target element with its
first parameter set to `x * 1000` and its second to `y * 1000`; the shape,
mean, photon-energy and extent signals afterwards hold exactly the fields
the reader returned; and the image signal holds the freshly generated datum
id (a `Val.vid`, a pointer to externally stored content), not the data. -/
theorem trigger_scales_and_publishes (env : Env) (w : World)
    (x y : ℚ) (m1 : Motor) (f1 : String) (bl : List Element) (el : Element)
    (watchEl : Element) (p1 : String) (ret : SRWResult)
    (hx : w.det.motor0.readField w.det.field0 = some x)
    (hm1 : w.det.motor1 = some m1)
    (hf1 : w.det.field1 = some f1)
    (hy : m1.readField f1 = some y)
    (hauth : env.authResult = .ok { beamline := bl })
    (hfind : find_element bl (some w.det.optic_name) = some el)
    (hp1 : w.det.param1 = some p1)
    (hne : some p1 ≠ (some w.det.param0 : Option String))
    (hwatch : find_element
        (mutateFirst bl w.det.optic_name
          (fun e => (e.setp (some w.det.param0) (x * 1000)).setp (some p1) (y * 1000)))
        w.det.watch_name = some watchEl)
    (hrun : env.runResult = .ok ())
    (hdir : "/tmp/data/" ++ env.date ∈ w.fs.dirs)
    (hread : env.reader env.datafilePost = .ok ret) :
    (trigger env w).1 = .ok
      { sentBeamline := mutateFirst bl w.det.optic_name
          (fun e => (e.setp (some w.det.param0) (x * 1000)).setp (some p1) (y * 1000))
        report := "watchpointReport" ++ toString watchEl.elemId
        datumId := w.uidCounter
        srwFile := "/tmp/data/" ++ env.date ++ "/" ++ toString w.uidCounter ++ ".dat" } ∧
    find_element (mutateFirst bl w.det.optic_name
        (fun e => (e.setp (some w.det.param0) (x * 1000)).setp (some p1) (y * 1000)))
      (some w.det.optic_name) =
      some ((el.setp (some w.det.param0) (x * 1000)).setp (some p1) (y * 1000)) ∧
    ((el.setp (some w.det.param0) (x * 1000)).setp (some p1) (y * 1000)).getp
      (some w.det.param0) = some (x * 1000) ∧
    ((el.setp (some w.det.param0) (x * 1000)).setp (some p1) (y * 1000)).getp
      (some p1) = some (y * 1000) ∧
    (trigger env w).2.det.image = .vid w.uidCounter ∧
    (trigger env w).2.det.shape = .vpair ret.shape ∧
    (trigger env w).2.det.mean = .vnum ret.mean ∧
    (trigger env w).2.det.photon_energy = .vnum ret.photon_energy ∧
    (trigger env w).2.det.horizontal_extent = .vpair ret.horizontal_extent ∧
    (trigger env w).2.det.vertical_extent = .vpair ret.vertical_extent := by
  have hfm := find_element_mutateFirst bl w.det.optic_name
    (fun e => (e.setp (some w.det.param0) (x * 1000)).setp (some p1) (y * 1000))
    (fun e => rfl)
  refine ⟨?_, ?_, ?_, ?_, ?_, ?_, ?_, ?_, ?_, ?_⟩
  all_goals
    simp [trigger, hx, hm1, hf1, hy, hauth, hfind, hp1, hwatch, hrun, hdir, hread,
      hfm, getp_setp_self, getp_setp_ne _ hne.symm, getp_setp_ne _ hne]

/-- Witness for C1: the specification's test vector (motor readings 1 and 2,
stub reader returning the fixed fields) at the demo configuration. -/
theorem trigger_scales_and_publishes_witness :
    wDemo.det.motor0.readField wDemo.det.field0 = some 1 ∧
    envDemo.reader envDemo.datafilePost = .ok retDemo ∧
    ((trigger envDemo wDemo).1 = .ok
      { sentBeamline := mutateFirst blDemo "Aperture"
          (fun e => (e.setp (some "horizontalSize") (1 * 1000)).setp
            (some "verticalSize") (2 * 1000))
        report := "watchpointReport" ++ toString watchDemo.elemId
        datumId := wDemo.uidCounter
        srwFile := "/tmp/data/" ++ envDemo.date ++ "/" ++
          toString wDemo.uidCounter ++ ".dat" } ∧
    find_element (mutateFirst blDemo "Aperture"
        (fun e => (e.setp (some "horizontalSize") (1 * 1000)).setp
          (some "verticalSize") (2 * 1000))) (some "Aperture") =
      some ((apDemo.setp (some "horizontalSize") (1 * 1000)).setp
        (some "verticalSize") (2 * 1000)) ∧
    ((apDemo.setp (some "horizontalSize") (1 * 1000)).setp
        (some "verticalSize") (2 * 1000)).getp (some "horizontalSize") =
      some (1 * 1000) ∧
    ((apDemo.setp (some "horizontalSize") (1 * 1000)).setp
        (some "verticalSize") (2 * 1000)).getp (some "verticalSize") =
      some (2 * 1000) ∧
    (trigger envDemo wDemo).2.det.image = .vid wDemo.uidCounter ∧
    (trigger envDemo wDemo).2.det.shape = .vpair retDemo.shape ∧
    (trigger envDemo wDemo).2.det.mean = .vnum retDemo.mean ∧
    (trigger envDemo wDemo).2.det.photon_energy = .vnum retDemo.photon_energy ∧
    (trigger envDemo wDemo).2.det.horizontal_extent = .vpair retDemo.horizontal_extent ∧
    (trigger envDemo wDemo).2.det.vertical_extent = .vpair retDemo.vertical_extent) :=
  ⟨rfl, rfl,
   trigger_scales_and_publishes envDemo wDemo 1 2 { readings := [("ap_y", 2)] }
     "ap_y" blDemo apDemo watchDemo "verticalSize" retDemo rfl rfl rfl rfl rfl
     rfl rfl (by decide) rfl rfl (by decide) rfl⟩

/-- Folding the watch-point collection over a beamline with no watch-type
element leaves the accumulator unchanged. -/
theorem watch_foldl_const (bl : List Element) (acc : List (String × String))
    (hbl : ∀ e ∈ bl, e.etype ≠ "watch") :
    bl.foldl
      (fun d e => if e.etype = "watch" then dictInsert d e.title e.position else d)
      acc = acc := by
  induction bl generalizing acc with
  | nil => rfl
  | cons e rest ih =>
      simp only [List.foldl_cons]
      rw [if_neg (hbl e (by simp))]
      exact ih acc (fun e2 he2 => hbl e2 (by simp [he2]))

/-- C9: when the beamline returned by the remote service contains zero
elements of watch-point type, the discovery script raises the `ValueError`
of `get_options` after the first prompt, so the element, parameter and
watch-point prompts are never reached. -/
theorem cli_no_watchpoints_stops
    (auth : String → Except SimError SimData) (inputs : List String)
    (bl : List Element)
    (hauth : auth (inputs.getD 0 "") = .ok { beamline := bl })
    (hbl : ∀ e ∈ bl, e.etype ≠ "watch") :
    (cliScript auth inputs).prompts = 1 ∧
    (cliScript auth inputs).outcome =
      .error (.valueError "No watchpoints found. This simulation will not work") := by
  have hw : watchpointsOf bl = [] := watch_foldl_const bl [] hbl
  have hauth2 : auth (inputs[0]?.getD "") = .ok { beamline := bl } := by
    simpa using hauth
  constructor <;> simp [cliScript, get_options, hauth2, hw]

/-- Witness for C9: a stub service whose beamline holds one aperture and no
watch-point stops the script after the simulation-id prompt. -/
theorem cli_no_watchpoints_stops_witness :
    authStub (List.getD ["demo00"] 0 "") = .ok { beamline := [apDemo] } ∧
    apDemo.etype ≠ "watch" ∧
    (cliScript authStub ["demo00"]).prompts = 1 ∧
    (cliScript authStub ["demo00"]).outcome =
      .error (.valueError "No watchpoints found. This simulation will not work") :=
  ⟨rfl, by decide,
   (cli_no_watchpoints_stops authStub ["demo00"] [apDemo] rfl (by decide)).1,
   (cli_no_watchpoints_stops authStub ["demo00"] [apDemo] rfl (by decide)).2⟩

/-- C10: the units substring extracted from the `[200:300]` window of the
pre-run datafile is dead: for any two runs from the same world whose
environments agree except for the pre-run datafile, and whose pre-run
datafiles agree outside the extracted units substring, `trigger` returns
identical results — the same published signal values, the same written
result-file bytes and the same registry insertions. -/
theorem trigger_ignores_units_substring (env : Env) (d1 d2 : List Char)
    (w : World) (_h : unitsStripped d1 = unitsStripped d2) :
    trigger { env with datafilePre := d1 } w =
      trigger { env with datafilePre := d2 } w := by
  cases env
  rfl

/-- Witness for C10: two concrete pre-run datafiles differing exactly in the
bracketed units substring of the window produce identical trigger results. -/
theorem trigger_ignores_units_substring_witness :
    unitsStripped preA = unitsStripped preB ∧
    preA ≠ preB ∧
    trigger { envDemo with datafilePre := preA } wDemo =
      trigger { envDemo with datafilePre := preB } wDemo :=
  ⟨by decide, by decide,
   trigger_ignores_units_substring envDemo preA preB wDemo (by decide)⟩

end SRWSpec
